import Mathlib

/-!
Verification of the sensor-dash dashboard (src/main.py) against its
natural-language specification.

The Python source is shallowly embedded: instants are modelled as integer
numbers of seconds (so `datetime.now(CYPRUS_TZ)` becomes an abstract
parameter `now : Int`, and `timedelta(hours=h)` becomes `h * 3600`);
fractional second counts coming from `timedelta.total_seconds()` are
modelled as rationals; stateful methods become explicit state-passing
functions; store queries become list filtering, and a query outcome that
may raise becomes an `Except` value.  Each definition carries a comment
pointing at the lines of src/main.py it embeds.
-/

namespace SensorDash

/-! ## Time-Range Resolver (src/main.py, fetch_historical_data) -/

/-- Embeds lines 184-205 of src/main.py: the store-backed branch of
`fetch_historical_data` resolving the symbolic filter token to a pair
`(since_cyprus, until_cyprus)` of instants.  The Python truthiness test
`time_range == "custom" and start_date and end_date` (with Python
truthiness) becomes the test that
both optional dates are present; custom dates, already parsed and
localized, are passed as instants. -/
def resolveWindow (now : Int) (time_range : String) (start_date end_date : Option Int) :
    Int × Int :=
  if time_range = "12h" then (now - 12 * 3600, now)
  else if time_range = "24h" then (now - 24 * 3600, now)
  else if time_range = "7d" then (now - 7 * 86400, now)
  else if time_range = "30d" then (now - 30 * 86400, now)
  else if time_range = "custom" ∧ start_date.isSome ∧ end_date.isSome then
    (start_date.getD 0, end_date.getD 0)
  else (now - 24 * 3600, now)

/-- Embeds lines 157-167 of src/main.py: the synthetic-data branch of
`fetch_historical_data` choosing how many hourly points to generate. -/
def hoursForRange (time_range : String) : Nat :=
  if time_range = "12h" then 12
  else if time_range = "24h" then 24
  else if time_range = "7d" then 24 * 7
  else if time_range = "30d" then 24 * 30
  else 24

/-- Embeds line 169 of src/main.py: the synthetic timestamps
`[now - timedelta(hours=i) for i in range(hours, 0, -1)]`. -/
def demoTimestamps (now : Int) (time_range : String) : List Int :=
  (List.range (hoursForRange time_range)).map
    (fun j => now - ((hoursForRange time_range : Int) - (j : Int)) * 3600)

/-- C1: for every supported filter token the resolved window is the
documented duration ending at the current local time (12h, 24h, 7d, 30d),
any unknown token (including a custom token missing a date) defaults to the
24-hour window, the resolved until instant is never before the since
instant, and the synthetic-data branch generates the same duration as the
store-backed branch. -/
theorem C1_resolveWindow_durations (now : Int) (tok : String) (sd ed : Option Int)
    (hcustom : tok = "custom" → sd = none ∨ ed = none) :
    (resolveWindow now tok sd ed).2 = now ∧
    (resolveWindow now tok sd ed).1 ≤ (resolveWindow now tok sd ed).2 ∧
    (tok = "12h" → (resolveWindow now tok sd ed).1 = now - 12 * 3600) ∧
    (tok = "24h" → (resolveWindow now tok sd ed).1 = now - 24 * 3600) ∧
    (tok = "7d" → (resolveWindow now tok sd ed).1 = now - 7 * 86400) ∧
    (tok = "30d" → (resolveWindow now tok sd ed).1 = now - 30 * 86400) ∧
    (tok ≠ "12h" → tok ≠ "24h" → tok ≠ "7d" → tok ≠ "30d" →
      (resolveWindow now tok sd ed).1 = now - 24 * 3600) ∧
    (hoursForRange tok : Int) * 3600 =
      (resolveWindow now tok sd ed).2 - (resolveWindow now tok sd ed).1 := by
  unfold resolveWindow hoursForRange
  by_cases h12 : tok = "12h" <;> by_cases h24 : tok = "24h" <;>
    by_cases h7 : tok = "7d" <;> by_cases h30 : tok = "30d" <;>
    by_cases hc : tok = "custom" <;>
    simp_all <;> try omega
  rcases hcustom with h | h <;> simp [h] <;> omega

/-- Witness for C1 at a concrete input. -/
theorem C1_resolveWindow_durations_witness :
    (resolveWindow 0 "12h" none none).2 = 0 ∧
    (resolveWindow 0 "12h" none none).1 ≤ (resolveWindow 0 "12h" none none).2 ∧
    ("12h" = "12h" → (resolveWindow 0 "12h" none none).1 = 0 - 12 * 3600) ∧
    ("12h" = "24h" → (resolveWindow 0 "12h" none none).1 = 0 - 24 * 3600) ∧
    ("12h" = "7d" → (resolveWindow 0 "12h" none none).1 = 0 - 7 * 86400) ∧
    ("12h" = "30d" → (resolveWindow 0 "12h" none none).1 = 0 - 30 * 86400) ∧
    ("12h" ≠ "12h" → "12h" ≠ "24h" → "12h" ≠ "7d" → "12h" ≠ "30d" →
      (resolveWindow 0 "12h" none none).1 = 0 - 24 * 3600) ∧
    (hoursForRange "12h" : Int) * 3600 =
      (resolveWindow 0 "12h" none none).2 - (resolveWindow 0 "12h" none none).1 :=
  C1_resolveWindow_durations 0 "12h" none none (by decide)

/-- C10: a custom filter missing its start or end date resolves to exactly
the default 24-hour window, in the store-backed branch and, through the
generated hour count and timestamps, in the synthetic-data branch. -/
theorem C10_custom_missing_date_defaults (now : Int) (sd ed : Option Int)
    (hmiss : sd = none ∨ ed = none) :
    resolveWindow now "custom" sd ed = resolveWindow now "24h" sd ed ∧
    hoursForRange "custom" = hoursForRange "24h" ∧
    demoTimestamps now "custom" = demoTimestamps now "24h" := by
  refine ⟨?_, by decide, by simp [demoTimestamps, hoursForRange]⟩
  rcases hmiss with h | h <;> simp [resolveWindow, h]

/-- Witness for C10 at a concrete input. -/
theorem C10_custom_missing_date_defaults_witness :
    resolveWindow 0 "custom" none (some 5) = resolveWindow 0 "24h" none (some 5) ∧
    hoursForRange "custom" = hoursForRange "24h" ∧
    demoTimestamps 0 "custom" = demoTimestamps 0 "24h" :=
  C10_custom_missing_date_defaults 0 none (some 5) (Or.inl rfl)

/-! ## Store query model and historical fetch (src/main.py, lines 207-246)

The hosted store is modelled as a list of rows; the query
`.gte(timestamp, since).lte(timestamp, until).order(timestamp)`
becomes filtering followed by sorting on an integer sort key. -/

/-- Ordered insertion of an element into a list by an integer key. -/
def insertKey {α : Type} (key : α → Int) (x : α) : List α → List α
  | [] => [x]
  | y :: ys => if key x ≤ key y then x :: y :: ys else y :: insertKey key x ys

/-- Sorting a list by an integer key (models the ascending order applied by
the store and by the export path). -/
def sortKey {α : Type} (key : α → Int) : List α → List α
  | [] => []
  | x :: xs => insertKey key x (sortKey key xs)

theorem mem_insertKey {α : Type} (key : α → Int) (x a : α) (l : List α) :
    a ∈ insertKey key x l ↔ a = x ∨ a ∈ l := by
  induction l with
  | nil => simp [insertKey]
  | cons y ys ih =>
    unfold insertKey
    by_cases h : key x ≤ key y <;> simp [h, ih] <;> tauto

theorem mem_sortKey {α : Type} (key : α → Int) (a : α) (l : List α) :
    a ∈ sortKey key l ↔ a ∈ l := by
  induction l with
  | nil => simp [sortKey]
  | cons x xs ih => simp [sortKey, mem_insertKey, ih]

theorem pairwise_insertKey {α : Type} (key : α → Int) (x : α) (l : List α)
    (h : l.Pairwise (fun a b => key a ≤ key b)) :
    (insertKey key x l).Pairwise (fun a b => key a ≤ key b) := by
  induction l with
  | nil => simp [insertKey]
  | cons y ys ih =>
    unfold insertKey
    rcases List.pairwise_cons.mp h with ⟨hy, hys⟩
    by_cases hxy : key x ≤ key y
    · rw [if_pos hxy]
      refine List.pairwise_cons.mpr ⟨?_, h⟩
      intro b hb
      rcases List.mem_cons.mp hb with rfl | hb
      · exact hxy
      · exact le_trans hxy (hy _ hb)
    · rw [if_neg hxy]
      refine List.pairwise_cons.mpr ⟨?_, ih hys⟩
      intro b hb
      rcases (mem_insertKey key x b ys).mp hb with rfl | hb
      · omega
      · exact hy _ hb

theorem pairwise_sortKey {α : Type} (key : α → Int) (l : List α) :
    (sortKey key l).Pairwise (fun a b => key a ≤ key b) := by
  induction l with
  | nil => simp [sortKey]
  | cons x xs ih => exact pairwise_insertKey key x _ ih

/-- A row of the `sensor_readings` table as selected at line 208-210 of
src/main.py: `device_name, timestamp, temperature, humidity`, where either
measurement may be absent.  Timestamps are instants in seconds. -/
structure SRow where
  device_name : String
  timestamp : Int
  temperature : Option ℚ
  humidity : Option ℚ
deriving DecidableEq, Repr

/-- Embeds the store query of line 208-210 of src/main.py:
`gte(timestamp, since)`, `lte(timestamp, until)`, `order(timestamp)`
(ascending). -/
def queryRange (tbl : List SRow) (sinceC untilC : Int) : List SRow :=
  sortKey (fun r => r.timestamp)
    (tbl.filter (fun r => decide (sinceC ≤ r.timestamp ∧ r.timestamp ≤ untilC)))

/-- One point of the temperature history series (lines 224-228). -/
structure TempPoint where
  device_name : String
  timestamp : Int
  temperature : ℚ
deriving DecidableEq, Repr

/-- One point of the humidity history series (lines 237-241). -/
structure HumPoint where
  device_name : String
  timestamp : Int
  humidity : ℚ
deriving DecidableEq, Repr

/-- Embeds the loop of lines 216-241 of src/main.py: each returned row with
a present temperature contributes a temperature point, each row with a
present humidity contributes a humidity point, in row order. -/
def splitHistory (rows : List SRow) : List TempPoint × List HumPoint :=
  (rows.filterMap (fun r => r.temperature.map (fun v => ⟨r.device_name, r.timestamp, v⟩)),
   rows.filterMap (fun r => r.humidity.map (fun v => ⟨r.device_name, r.timestamp, v⟩)))

/-- Embeds the store-backed body of `fetch_historical_data` (lines 184-246):
resolve the window, query the store, split into the two series. -/
def fetchHistoricalStore (tbl : List SRow) (now : Int) (time_range : String)
    (start_date end_date : Option Int) : List TempPoint × List HumPoint :=
  let w := resolveWindow now time_range start_date end_date
  splitHistory (queryRange tbl w.1 w.2)

/-- C2 as written is false: the store query uses `lte`, so a row whose
timestamp equals the until bound is returned, not excluded.  Concretely, a
table holding one temperature row at instant 10 queried with the window
[0, 10] yields that row in the temperature series. -/
theorem C2_counterexample_until_included :
    (splitHistory (queryRange [⟨"Living Room", 10, some 1, none⟩] 0 10)).1
      = [⟨"Living Room", 10, 1⟩] := by
  decide

theorem mem_queryRange (tbl : List SRow) (sinceC untilC : Int) (r : SRow) :
    r ∈ queryRange tbl sinceC untilC ↔
      r ∈ tbl ∧ sinceC ≤ r.timestamp ∧ r.timestamp ≤ untilC := by
  unfold queryRange
  rw [mem_sortKey, List.mem_filter]
  simp

theorem mem_splitHistory_temp (rows : List SRow) (p : TempPoint) :
    p ∈ (splitHistory rows).1 ↔
      ∃ r ∈ rows, r.device_name = p.device_name ∧ r.timestamp = p.timestamp ∧
        r.temperature = some p.temperature := by
  unfold splitHistory
  simp only [List.mem_filterMap, Option.map_eq_some']
  constructor
  · rintro ⟨r, hr, v, hv, rfl⟩
    exact ⟨r, hr, rfl, rfl, hv⟩
  · rintro ⟨r, hr, hdev, hts, hv⟩
    refine ⟨r, hr, p.temperature, hv, ?_⟩
    cases p
    simp_all

theorem mem_splitHistory_hum (rows : List SRow) (p : HumPoint) :
    p ∈ (splitHistory rows).2 ↔
      ∃ r ∈ rows, r.device_name = p.device_name ∧ r.timestamp = p.timestamp ∧
        r.humidity = some p.humidity := by
  unfold splitHistory
  simp only [List.mem_filterMap, Option.map_eq_some']
  constructor
  · rintro ⟨r, hr, v, hv, rfl⟩
    exact ⟨r, hr, rfl, rfl, hv⟩
  · rintro ⟨r, hr, hdev, hts, hv⟩
    refine ⟨r, hr, p.humidity, hv, ?_⟩
    cases p
    simp_all

theorem splitHistory_temp_pairwise (rows : List SRow)
    (h : rows.Pairwise (fun a b => a.timestamp ≤ b.timestamp)) :
    (splitHistory rows).1.Pairwise (fun a b => a.timestamp ≤ b.timestamp) := by
  unfold splitHistory
  refine List.Pairwise.filterMap _ ?_ h
  intro a b hab x hx y hy
  rcases ha : a.temperature with _ | v <;> rw [ha] at hx <;> simp at hx
  rcases hb : b.temperature with _ | w <;> rw [hb] at hy <;> simp at hy
  subst hx
  subst hy
  exact hab

theorem splitHistory_hum_pairwise (rows : List SRow)
    (h : rows.Pairwise (fun a b => a.timestamp ≤ b.timestamp)) :
    (splitHistory rows).2.Pairwise (fun a b => a.timestamp ≤ b.timestamp) := by
  unfold splitHistory
  refine List.Pairwise.filterMap _ ?_ h
  intro a b hab x hx y hy
  rcases ha : a.humidity with _ | v <;> rw [ha] at hx <;> simp at hx
  rcases hb : b.humidity with _ | w <;> rw [hb] at hy <;> simp at hy
  subst hx
  subst hy
  exact hab

/-- C2 amended: `fetch_historical_data` returns exactly the rows whose
timestamp lies in the closed interval from since to until — rows with
timestamp equal to until are included — ordered by timestamp ascending and
split into a temperature series and a humidity series. -/
theorem C2_fetchHistorical_closed_interval (tbl : List SRow) (sinceC untilC : Int) :
    (∀ p : TempPoint, p ∈ (splitHistory (queryRange tbl sinceC untilC)).1 ↔
      ∃ r ∈ tbl, sinceC ≤ r.timestamp ∧ r.timestamp ≤ untilC ∧
        r.device_name = p.device_name ∧ r.timestamp = p.timestamp ∧
        r.temperature = some p.temperature) ∧
    (∀ p : HumPoint, p ∈ (splitHistory (queryRange tbl sinceC untilC)).2 ↔
      ∃ r ∈ tbl, sinceC ≤ r.timestamp ∧ r.timestamp ≤ untilC ∧
        r.device_name = p.device_name ∧ r.timestamp = p.timestamp ∧
        r.humidity = some p.humidity) ∧
    (splitHistory (queryRange tbl sinceC untilC)).1.Pairwise
      (fun a b => a.timestamp ≤ b.timestamp) ∧
    (splitHistory (queryRange tbl sinceC untilC)).2.Pairwise
      (fun a b => a.timestamp ≤ b.timestamp) := by
  have hsorted : (queryRange tbl sinceC untilC).Pairwise
      (fun a b => a.timestamp ≤ b.timestamp) := pairwise_sortKey _ _
  refine ⟨?_, ?_, splitHistory_temp_pairwise _ hsorted, splitHistory_hum_pairwise _ hsorted⟩
  · intro p
    rw [mem_splitHistory_temp]
    constructor
    · rintro ⟨r, hr, hdev, hts, hv⟩
      rcases (mem_queryRange tbl sinceC untilC r).mp hr with ⟨hrt, h1, h2⟩
      exact ⟨r, hrt, h1, h2, hdev, hts, hv⟩
    · rintro ⟨r, hrt, h1, h2, hdev, hts, hv⟩
      exact ⟨r, (mem_queryRange tbl sinceC untilC r).mpr ⟨hrt, h1, h2⟩, hdev, hts, hv⟩
  · intro p
    rw [mem_splitHistory_hum]
    constructor
    · rintro ⟨r, hr, hdev, hts, hv⟩
      rcases (mem_queryRange tbl sinceC untilC r).mp hr with ⟨hrt, h1, h2⟩
      exact ⟨r, hrt, h1, h2, hdev, hts, hv⟩
    · rintro ⟨r, hrt, h1, h2, hdev, hts, hv⟩
      exact ⟨r, (mem_queryRange tbl sinceC untilC r).mpr ⟨hrt, h1, h2⟩, hdev, hts, hv⟩

/-! ## Timestamp Normalizer (src/main.py, is_data_stale and format_timestamp)

A raw timestamp string from the store is abstracted by its parse outcome: a
missing value, an unparsable string, or a parsed wall-clock value (seconds)
together with an optional UTC-offset suffix (seconds); the suffix value 0
stands for the +00 / +00:00 markers the store attaches.  The fixed local
zone appears as a function giving its UTC offset at a wall-clock value, as
pytz localize derives it. -/

/-- Parse outcome of a raw timestamp string. -/
inductive RawTs where
  | missing : RawTs
  | malformed : RawTs
  | valid (wall : Int) (tzOffset : Option Int) : RawTs
deriving DecidableEq, Repr

/-- Embeds lines 479-487 of src/main.py: the instant `is_data_stale`
assigns to a parsed timestamp.  A timestamp with no offset, or with a zero
offset, is reinterpreted as UTC (absolute instant equal to its wall clock);
any other offset is honoured, so the absolute instant is the wall clock
minus the offset.  The later conversion to the local zone does not move
the absolute instant. -/
def correctedInstant (wall : Int) (tzOffset : Option Int) : Int :=
  match tzOffset with
  | none => wall
  | some o => if o = 0 then wall else wall - o

/-- Default staleness threshold in hours (the `hours: int = 4` default of
`is_data_stale`, line 469 of src/main.py). -/
def staleDefaultHours : Int := 4

/-- Embeds `is_data_stale` (lines 469-497 of src/main.py): a missing or
unparsable timestamp is stale; otherwise the age in hours of the corrected
instant, as a real quantity, is compared strictly against the threshold. -/
def is_data_stale (nowAbs : Int) (t : RawTs) (hours : Int) : Bool :=
  match t with
  | .missing => true
  | .malformed => true
  | .valid wall tzOffset =>
      let hoursDiff : ℚ := ((nowAbs - correctedInstant wall tzOffset : Int) : ℚ) / 3600
      decide (hoursDiff > (hours : ℚ))

theorem hoursDiff_gt_iff (a h : Int) : ((a : ℚ) / 3600 > (h : ℚ)) ↔ a > 3600 * h := by
  rw [gt_iff_lt, lt_div_iff₀ (by norm_num : (0 : ℚ) < 3600)]
  constructor
  · intro hlt
    exact_mod_cast (by push_cast at hlt ⊢; linarith : ((3600 * h : Int) : ℚ) < (a : ℚ))
  · intro hlt
    have : ((3600 * h : Int) : ℚ) < (a : ℚ) := by exact_mod_cast hlt
    push_cast at this
    linarith

/-- C3: `is_data_stale` is true exactly when the corrected age strictly
exceeds the threshold (in seconds, threshold hours times 3600); an age
exactly equal to the threshold is not stale; a missing or unparsable
timestamp is stale; the default threshold is 4 hours. -/
theorem C3_is_data_stale_boundary (nowAbs wall : Int) (tzOffset : Option Int) (hours : Int) :
    (is_data_stale nowAbs .missing hours = true) ∧
    (is_data_stale nowAbs .malformed hours = true) ∧
    (is_data_stale nowAbs (.valid wall tzOffset) hours = true ↔
      nowAbs - correctedInstant wall tzOffset > 3600 * hours) ∧
    (nowAbs - correctedInstant wall tzOffset = 3600 * hours →
      is_data_stale nowAbs (.valid wall tzOffset) hours = false) ∧
    staleDefaultHours = 4 := by
  refine ⟨rfl, rfl, ?_, ?_, rfl⟩
  · unfold is_data_stale
    rw [decide_eq_true_iff]
    exact hoursDiff_gt_iff _ _
  · intro heq
    unfold is_data_stale
    rw [decide_eq_false_iff_not]
    intro hgt
    rw [hoursDiff_gt_iff] at hgt
    omega

/-- Witness for C3 at concrete inputs: with a threshold of 4 hours, an age
of 14401 seconds is stale and an age of exactly 14400 seconds is not. -/
theorem C3_is_data_stale_boundary_witness :
    is_data_stale 14401 (.valid 0 none) 4 = true ∧
    is_data_stale 14400 (.valid 0 none) 4 = false :=
  ⟨((C3_is_data_stale_boundary 14401 0 none 4).2.2.1).mpr (by decide),
   (C3_is_data_stale_boundary 14400 0 none 4).2.2.2.1 (by decide)⟩

/-- Abstraction of a raw timestamp string for the two correction paths: a
wall-clock value and an optional trailing UTC-offset suffix. -/
structure RawStamp where
  wall : Int
  suffix : Option Int
deriving DecidableEq, Repr

/-- Embeds lines 417-431 of src/main.py (`format_timestamp`): a zero-offset
suffix (+00:00 or +00) is stripped, the remainder is parsed as a naive wall
clock, and the fixed local zone is attached directly, so the absolute
instant is the wall clock minus the local offset there.  A naive string is
treated the same way; a string carrying a nonzero offset makes
`CYPRUS_TZ.localize` raise, which the handler turns into "Unknown",
modelled as `none`. -/
def format_path_instant (localOffset : Int → Int) (r : RawStamp) : Option Int :=
  match r.suffix with
  | none => some (r.wall - localOffset r.wall)
  | some o => if o = 0 then some (r.wall - localOffset r.wall) else none

/-- Embeds lines 219-222 of src/main.py (the historical-fetch loop): +00 is
rewritten to +00:00 and `datetime.fromisoformat` honours the offset as a
genuine UTC offset, so the absolute instant is the wall clock minus the
stated offset (the wall clock itself for the zero marker). -/
def historical_path_instant (r : RawStamp) : Int :=
  match r.suffix with
  | none => r.wall
  | some o => r.wall - o

/-- C4: for a raw timestamp carrying the zero-UTC-offset marker, the
latest-readings path attaches the local zone to the wall clock with no UTC
conversion while the historical path treats the marker as genuine UTC;
whenever the local offset at that wall clock is nonzero the two paths
assign different instants, differing by exactly that offset. -/
theorem C4_latest_vs_historical_offset (localOffset : Int → Int) (r : RawStamp)
    (hzero : r.suffix = some 0) (hnz : localOffset r.wall ≠ 0) :
    format_path_instant localOffset r = some (r.wall - localOffset r.wall) ∧
    historical_path_instant r = r.wall ∧
    historical_path_instant r - (r.wall - localOffset r.wall) = localOffset r.wall ∧
    format_path_instant localOffset r ≠ some (historical_path_instant r) := by
  have h1 : format_path_instant localOffset r = some (r.wall - localOffset r.wall) := by
    unfold format_path_instant
    rw [hzero]
    simp
  have h2 : historical_path_instant r = r.wall := by
    unfold historical_path_instant
    rw [hzero]
    simp
  refine ⟨h1, h2, by omega, ?_⟩
  rw [h1, h2]
  intro hcontra
  have := Option.some.inj hcontra
  omega

/-- Witness for C4 at a concrete input: a wall clock of 1000 seconds with
the +00 marker under a +02:00 local offset. -/
theorem C4_latest_vs_historical_offset_witness :
    format_path_instant (fun _ => 7200) ⟨1000, some 0⟩ = some (1000 - 7200) ∧
    historical_path_instant ⟨1000, some 0⟩ = 1000 ∧
    historical_path_instant ⟨1000, some 0⟩ - (1000 - 7200) = 7200 ∧
    format_path_instant (fun _ => 7200) ⟨1000, some 0⟩
      ≠ some (historical_path_instant ⟨1000, some 0⟩) :=
  C4_latest_vs_historical_offset (fun _ => 7200) ⟨1000, some 0⟩ rfl (by norm_num)

/-! ## Relative-time formatting (src/main.py, format_timestamp lines 436-463)

The delta `now_cyprus - timestamp_cyprus` in seconds (a real quantity,
`timedelta.total_seconds()`) is bucketed into a phrase. -/

/-- Embeds lines 438-463 of src/main.py: the bucketing of the delta in
seconds into a relative-time phrase.  The negative branch mirrors the
`total_seconds = abs(total_seconds)` reassignment by taking the absolute
value, and `int(x // 60)` becomes the integer floor. -/
def formatDelta (total_seconds : ℚ) : String :=
  if total_seconds < 0 then
    if |total_seconds| < 60 then "Just now"
    else if |total_seconds| < 3600 then
      toString ⌊|total_seconds| / 60⌋ ++ " min from now"
    else toString ⌊|total_seconds| / 3600⌋ ++ " hr from now"
  else
    if total_seconds < 60 then "Just now"
    else if total_seconds < 3600 then toString ⌊total_seconds / 60⌋ ++ " min ago"
    else if total_seconds < 86400 then toString ⌊total_seconds / 3600⌋ ++ " hr ago"
    else toString ⌊total_seconds / 86400⌋ ++ " days ago"

/-- The bucket skeleton of `formatDelta`, indexed in increasing order of
the delta ranges: 0 = hr from now, 1 = min from now, 2 = Just now,
3 = min ago, 4 = hr ago, 5 = days ago. -/
def formatBucket (t : ℚ) : Nat :=
  if t < 0 then
    if |t| < 60 then 2 else if |t| < 3600 then 1 else 0
  else
    if t < 60 then 2 else if t < 3600 then 3 else if t < 86400 then 4 else 5

/-- The phrase each bucket of `formatDelta` renders. -/
def renderBucket (b : Nat) (t : ℚ) : String :=
  match b with
  | 0 => toString ⌊|t| / 3600⌋ ++ " hr from now"
  | 1 => toString ⌊|t| / 60⌋ ++ " min from now"
  | 2 => "Just now"
  | 3 => toString ⌊t / 60⌋ ++ " min ago"
  | 4 => toString ⌊t / 3600⌋ ++ " hr ago"
  | _ => toString ⌊t / 86400⌋ ++ " days ago"

theorem formatDelta_eq_renderBucket (t : ℚ) :
    formatDelta t = renderBucket (formatBucket t) t := by
  unfold formatDelta formatBucket renderBucket
  split_ifs <;> rfl

/-- Suffix test on strings, by character list comparison. -/
def strEndsWith (s suf : String) : Bool :=
  decide (s.data.drop (s.data.length - suf.data.length) = suf.data)

/-- The bucket ordering the claim uses, identifying ago and from-now
phrases of the same scale: Just now = 0 < min = 1 < hr = 2 < days = 3. -/
def claimBucketRank (s : String) : Nat :=
  if s = "Just now" then 0
  else if strEndsWith s " min ago" || strEndsWith s " min from now" then 1
  else if strEndsWith s " hr ago" || strEndsWith s " hr from now" then 2
  else 3

/-- C5 as written is false: it asserts a days-scale bucket for future
deltas of 24 hours or more, but for a delta of -90000 seconds (a timestamp
25 hours in the future) the code renders "25 hr from now", not a days
phrase. -/
theorem C5_counterexample_no_future_days :
    formatDelta (-90000) = "25 hr from now" ∧
    formatDelta (-90000) ≠ "1 days from now" := by
  have h : formatDelta (-90000) = "25 hr from now" := by
    unfold formatDelta
    rw [if_pos (by norm_num : (-90000 : ℚ) < 0),
      abs_of_neg (by norm_num : (-90000 : ℚ) < 0)]
    norm_num
    decide
  exact ⟨h, by rw [h]; decide⟩

/-- C5 amended: past deltas are bucketed as documented (under 60 s
"Just now", under 1 h "N min ago", under 24 h "N hr ago", 24 h or more
"N days ago"); future deltas use "from now" phrasing with only three
buckets — under 60 s "Just now", under 1 h "N min from now", and every
future delta of 1 hour or more "N hr from now" — with no days-scale
bucket. -/
theorem C5_formatDelta_buckets (t : ℚ) :
    (t ≤ -3600 → formatDelta t = toString ⌊-t / 3600⌋ ++ " hr from now") ∧
    (-3600 < t → t ≤ -60 → formatDelta t = toString ⌊-t / 60⌋ ++ " min from now") ∧
    (-60 < t → t < 60 → formatDelta t = "Just now") ∧
    (60 ≤ t → t < 3600 → formatDelta t = toString ⌊t / 60⌋ ++ " min ago") ∧
    (3600 ≤ t → t < 86400 → formatDelta t = toString ⌊t / 3600⌋ ++ " hr ago") ∧
    (86400 ≤ t → formatDelta t = toString ⌊t / 86400⌋ ++ " days ago") := by
  refine ⟨?_, ?_, ?_, ?_, ?_, ?_⟩
  · intro h
    have ht : t < 0 := by linarith
    unfold formatDelta
    rw [if_pos ht, abs_of_neg ht, if_neg (by linarith : ¬(-t < 60)),
      if_neg (by linarith : ¬(-t < 3600))]
  · intro h1 h2
    have ht : t < 0 := by linarith
    unfold formatDelta
    rw [if_pos ht, abs_of_neg ht, if_neg (by linarith : ¬(-t < 60)),
      if_pos (by linarith : -t < 3600)]
  · intro h1 h2
    unfold formatDelta
    rcases lt_or_le t 0 with ht | ht
    · rw [if_pos ht, abs_of_neg ht, if_pos (by linarith : -t < 60)]
    · rw [if_neg (by linarith : ¬t < 0), if_pos h2]
  · intro h1 h2
    unfold formatDelta
    rw [if_neg (by linarith : ¬t < 0), if_neg (by linarith : ¬t < 60), if_pos h2]
  · intro h1 h2
    unfold formatDelta
    rw [if_neg (by linarith : ¬t < 0), if_neg (by linarith : ¬t < 60),
      if_neg (by linarith : ¬t < 3600), if_pos h2]
  · intro h
    unfold formatDelta
    rw [if_neg (by linarith : ¬t < 0), if_neg (by linarith : ¬t < 60),
      if_neg (by linarith : ¬t < 3600), if_neg (by linarith : ¬t < 86400)]

/-- Witness for the amended C5 at concrete inputs in two buckets. -/
theorem C5_formatDelta_buckets_witness :
    formatDelta 100 = toString ⌊(100 : ℚ) / 60⌋ ++ " min ago" ∧
    formatDelta (-7200) = toString ⌊-(-7200 : ℚ) / 3600⌋ ++ " hr from now" :=
  ⟨(C5_formatDelta_buckets 100).2.2.2.1 (by norm_num) (by norm_num),
   (C5_formatDelta_buckets (-7200)).1 (by norm_num)⟩

theorem formatDelta_neg_7200 : formatDelta (-7200) = "2 hr from now" := by
  unfold formatDelta
  rw [if_pos (by norm_num : (-7200 : ℚ) < 0),
    abs_of_neg (by norm_num : (-7200 : ℚ) < 0)]
  norm_num
  decide

theorem formatDelta_neg_120 : formatDelta (-120) = "2 min from now" := by
  unfold formatDelta
  rw [if_pos (by norm_num : (-120 : ℚ) < 0),
    abs_of_neg (by norm_num : (-120 : ℚ) < 0)]
  norm_num
  decide

/-- C6 as written is false: with buckets identified by scale regardless of
direction, a future timestamp formatted at a later "now" can drop to a
smaller bucket.  For a fixed timestamp, a first "now" 7200 s before it
renders "2 hr from now" (scale rank 2) and a later "now" 120 s before it
renders "2 min from now" (scale rank 1). -/
theorem C6_counterexample_future_rank_drop :
    formatDelta (-7200) = "2 hr from now" ∧
    formatDelta (-120) = "2 min from now" ∧
    claimBucketRank (formatDelta (-120)) < claimBucketRank (formatDelta (-7200)) := by
  refine ⟨formatDelta_neg_7200, formatDelta_neg_120, ?_⟩
  rw [formatDelta_neg_7200, formatDelta_neg_120]
  decide

/-- C6 amended: relative-time formatting is monotonic once buckets are
ordered by their delta ranges — N hr from now < N min from now < Just now
< N min ago < N hr ago < N days ago; the first conjunct ties the bucket
index to the phrase `format_timestamp` actually renders.  For timestamps
not in the future this restriction is exactly the claimed Just now < min
< hr < days ordering. -/
theorem C6_formatBucket_monotone :
    (∀ t : ℚ, formatDelta t = renderBucket (formatBucket t) t) ∧
    (∀ t1 t2 : ℚ, t1 ≤ t2 → formatBucket t1 ≤ formatBucket t2) := by
  refine ⟨formatDelta_eq_renderBucket, ?_⟩
  intro t1 t2 hle
  unfold formatBucket
  rcases lt_or_le t1 0 with h1 | h1 <;> rcases lt_or_le t2 0 with h2 | h2
  · rw [abs_of_neg h1, abs_of_neg h2]
    split_ifs <;> first | omega | linarith
  · rw [abs_of_neg h1]
    split_ifs <;> first | omega | linarith
  · linarith
  · split_ifs <;> first | omega | linarith

/-- Witness for the amended C6 at concrete inputs. -/
theorem C6_formatBucket_monotone_witness :
    formatDelta 5 = renderBucket (formatBucket 5) 5 ∧
    formatBucket 0 ≤ formatBucket 100 :=
  ⟨C6_formatBucket_monotone.1 5, C6_formatBucket_monotone.2 0 100 (by norm_num)⟩

/-! ## Device statistics (src/main.py, fetch_device_stats lines 64-87)

The two store queries are modelled by their outcomes: `Except.ok n` when a
query returns n rows, `Except.error` when it raises.  The method mutates
`self.device_stats`; it becomes a function from the previous stats to the
new stats. -/

/-- The `device_stats` dictionary (lines 40-43 of src/main.py). -/
structure DeviceStats where
  active_sensors : Nat
  data_points_today : Nat
deriving DecidableEq, Repr

/-- Embeds `fetch_device_stats` (lines 64-87 of src/main.py).  Without a
store the demo values are assigned wholesale.  With a store, the first
query result is assigned to `active_sensors`, then the second query result
to `data_points_today`; an exception at either query aborts the remaining
assignments and is caught and logged, so the fields not yet assigned keep
their previous values. -/
def fetch_device_stats (hasStore : Bool) (q1 q2 : Except Unit Nat)
    (s : DeviceStats) : DeviceStats :=
  if !hasStore then ⟨12, 2847⟩
  else
    match q1 with
    | .error _ => s
    | .ok n1 =>
        match q2 with
        | .error _ => { s with active_sensors := n1 }
        | .ok n2 => ⟨n1, n2⟩

/-- C8 as written is false: when the first query succeeds and the second
raises, the stats are partially updated.  Concretely, from previous stats
(7, 9), a first query returning 5 and a failing second query leave
(5, 9): `active_sensors` is fresh while `data_points_today` is neither
fresh nor reset — the result is not the previous state, not the zero
default, and not the demo values. -/
theorem C8_counterexample_partial_update :
    fetch_device_stats true (.ok 5) (.error ()) ⟨7, 9⟩ = ⟨5, 9⟩ ∧
    fetch_device_stats true (.ok 5) (.error ()) ⟨7, 9⟩ ≠ ⟨7, 9⟩ ∧
    fetch_device_stats true (.ok 5) (.error ()) ⟨7, 9⟩ ≠ ⟨0, 0⟩ ∧
    fetch_device_stats true (.ok 5) (.error ()) ⟨7, 9⟩ ≠ ⟨12, 2847⟩ := by
  refine ⟨rfl, ?_, ?_, ?_⟩ <;> decide

/-- C8 amended: `fetch_device_stats` never propagates an exception (it is a
total state transformer), both fields are fresh when both queries succeed,
a failure of the first query leaves the previous stats untouched, but a
failure of the second query after a successful first leaves a partially
updated state: `active_sensors` fresh, `data_points_today` unchanged. -/
theorem C8_fetch_device_stats_characterization (s : DeviceStats) (n1 n2 : Nat)
    (e : Unit) (q2 : Except Unit Nat) :
    fetch_device_stats false (.ok n1) q2 s = ⟨12, 2847⟩ ∧
    fetch_device_stats true (.error e) q2 s = s ∧
    fetch_device_stats true (.ok n1) (.error e) s =
      { s with active_sensors := n1 } ∧
    fetch_device_stats true (.ok n1) (.ok n2) s = ⟨n1, n2⟩ :=
  ⟨rfl, rfl, rfl, rfl⟩

/-! ## Authentication (src/main.py, authenticate line 558 and the login
handler of show_login, lines 931-938) -/

/-- Embeds `authenticate` (lines 558-560 of src/main.py): exact equality
of both provided credentials against the configured ones. -/
def authenticate (cfgUser cfgPass username password : String) : Bool :=
  username == cfgUser && password == cfgPass

/-- The state the login handler touches: the session authenticated flag,
the error label text, and the two input fields. -/
structure LoginState where
  authenticated : Bool
  errorText : String
  usernameInput : String
  passwordInput : String
deriving DecidableEq, Repr

/-- Embeds `handle_login` of `show_login` (lines 931-938 of src/main.py):
on a successful `authenticate` the session flag is set to true (the
navigation side effect is not modelled); otherwise the error label is set
and both input fields are cleared, and the flag is not touched. -/
def handle_login (cfgUser cfgPass : String) (s : LoginState) : LoginState :=
  if authenticate cfgUser cfgPass s.usernameInput s.passwordInput then
    { s with authenticated := true }
  else
    { s with errorText := "Invalid username or password",
             usernameInput := "", passwordInput := "" }

/-- C9: `authenticate` returns true exactly when both arguments equal the
configured credentials, and the session flag is true after the login
handler only if it was already true or `authenticate` returned true on the
submitted inputs. -/
theorem C9_authenticate_exact (cfgUser cfgPass username password : String)
    (s : LoginState) :
    (authenticate cfgUser cfgPass username password = true ↔
      username = cfgUser ∧ password = cfgPass) ∧
    ((handle_login cfgUser cfgPass s).authenticated = true →
      s.authenticated = true ∨
        authenticate cfgUser cfgPass s.usernameInput s.passwordInput = true) := by
  constructor
  · unfold authenticate
    rw [Bool.and_eq_true, beq_iff_eq, beq_iff_eq]
  · unfold handle_login
    by_cases h : authenticate cfgUser cfgPass s.usernameInput s.passwordInput = true
    · rw [if_pos h]
      intro _
      exact Or.inr h
    · rw [if_neg h]
      intro hflag
      exact Or.inl hflag

/-- Witness for C9 at concrete inputs: the default credentials of
src/main.py (lines 17-18) accept exactly themselves, and a failed login
does not set the flag. -/
theorem C9_authenticate_exact_witness :
    (authenticate "admin" "password" "admin" "password" = true ↔
      "admin" = "admin" ∧ "password" = "password") ∧
    ((handle_login "admin" "password" ⟨false, "", "guest", "wrong"⟩).authenticated = true →
      (false = true) ∨
        authenticate "admin" "password" "guest" "wrong" = true) :=
  C9_authenticate_exact "admin" "password" "admin" "password"
    ⟨false, "", "guest", "wrong"⟩

/-! ## CSV export (src/main.py, export_to_csv lines 499-556)

Exported timestamps are datetimes; they are modelled by their calendar
components, compared through an injective-on-calendar-order key.  The
pandas outer merge on (timestamp, device_name) is modelled directly: each
left row is paired with every matching right row, an unmatched left row
keeps an absent humidity, and unmatched right rows follow with an absent
temperature.  `sort_values` becomes sorting by the timestamp key, and
`strftime` becomes zero-padded digit rendering. -/

/-- Calendar components of a local datetime. -/
structure DateTimeParts where
  year : Nat
  month : Nat
  day : Nat
  hour : Nat
  minute : Nat
  second : Nat
deriving DecidableEq, Repr

/-- Sort key linearizing the calendar order of `DateTimeParts`. -/
def dtKey (d : DateTimeParts) : Int :=
  ((((d.year * 13 + d.month) * 32 + d.day) * 25 + d.hour) * 61 + d.minute) * 61
    + d.second

/-- Zero-padded two-digit rendering, as strftime %m %d %H %M %S produce. -/
def pad2 (n : Nat) : String :=
  String.mk [Nat.digitChar (n / 10 % 10), Nat.digitChar (n % 10)]

/-- Zero-padded four-digit rendering, as strftime %Y produces for the years
this dashboard handles. -/
def pad4 (n : Nat) : String :=
  String.mk [Nat.digitChar (n / 1000 % 10), Nat.digitChar (n / 100 % 10),
    Nat.digitChar (n / 10 % 10), Nat.digitChar (n % 10)]

/-- Embeds the strftime format %Y%m%d_%H%M%S (line 509 of src/main.py), the
filename stamp. -/
def strfStamp (d : DateTimeParts) : String :=
  pad4 d.year ++ pad2 d.month ++ pad2 d.day ++ "_" ++ pad2 d.hour
    ++ pad2 d.minute ++ pad2 d.second

/-- Embeds the strftime format %Y-%m-%d %H:%M:%S (line 543 of src/main.py), the
rendering of the timestamp column before encoding. -/
def strfTimestamp (d : DateTimeParts) : String :=
  pad4 d.year ++ "-" ++ pad2 d.month ++ "-" ++ pad2 d.day ++ " " ++ pad2 d.hour
    ++ ":" ++ pad2 d.minute ++ ":" ++ pad2 d.second

/-- A row of the temperature history as exported. -/
structure TempRow where
  device_name : String
  timestamp : DateTimeParts
  temperature : ℚ
deriving DecidableEq, Repr

/-- A row of the humidity history as exported. -/
structure HumRow where
  device_name : String
  timestamp : DateTimeParts
  humidity : ℚ
deriving DecidableEq, Repr

/-- A row of the combined export; a measurement absent after the outer
merge is a pandas NaN, rendered as an empty CSV cell. -/
structure MergedRow where
  device_name : String
  timestamp : DateTimeParts
  temperature : Option ℚ
  humidity : Option ℚ
deriving DecidableEq, Repr

/-- Embeds the pandas outer merge of temp_df and humidity_df on the columns
timestamp and device_name (line 524 of src/main.py): each temperature row pairs with
every humidity row sharing its (timestamp, device_name) key, an unmatched
temperature row keeps an absent humidity, and unmatched humidity rows
follow with an absent temperature. -/
def mergeOuter (ts : List TempRow) (hs : List HumRow) : List MergedRow :=
  ts.flatMap (fun t =>
    if (hs.filter (fun h =>
        decide (h.timestamp = t.timestamp ∧ h.device_name = t.device_name))).isEmpty then
      [⟨t.device_name, t.timestamp, some t.temperature, none⟩]
    else
      (hs.filter (fun h =>
        decide (h.timestamp = t.timestamp ∧ h.device_name = t.device_name))).map
        (fun h => ⟨t.device_name, t.timestamp, some t.temperature, some h.humidity⟩))
  ++ (hs.filter (fun h =>
      !(ts.any (fun t =>
        decide (h.timestamp = t.timestamp ∧ h.device_name = t.device_name))))).map
      (fun h => ⟨h.device_name, h.timestamp, none, some h.humidity⟩)

/-- Rendering of one merged cell: an absent measurement is empty. -/
def renderCell (c : Option ℚ) : String :=
  match c with
  | none => ""
  | some v => toString v

/-- One encoded CSV line of the combined export, in the merged column
order device_name, timestamp, temperature, humidity. -/
def encodeMergedRow (r : MergedRow) : String :=
  r.device_name ++ "," ++ strfTimestamp r.timestamp ++ ","
    ++ renderCell r.temperature ++ "," ++ renderCell r.humidity

/-- Embeds the frame selection of the combined-export path of
`export_to_csv` (lines 517-530 of src/main.py): merge when both series are
nonempty, otherwise fall back to the single nonempty series. -/
def exportFrameAll (ts : List TempRow) (hs : List HumRow) : List MergedRow :=
  if ts ≠ [] ∧ hs ≠ [] then mergeOuter ts hs
  else if ts ≠ [] then
    ts.map (fun t => ⟨t.device_name, t.timestamp, some t.temperature, none⟩)
  else if hs ≠ [] then
    hs.map (fun h => ⟨h.device_name, h.timestamp, none, some h.humidity⟩)
  else []

/-- The no-data signal and the (filename, sorted frame) result of the
combined export. -/
def export_to_csv_all (now : DateTimeParts) (ts : List TempRow) (hs : List HumRow) :
    Option (String × List MergedRow) :=
  if exportFrameAll ts hs = [] then none
  else some ("sensor_data_" ++ strfStamp now ++ ".csv",
    sortKey (fun r => dtKey r.timestamp) (exportFrameAll ts hs))

theorem pad2_length (n : Nat) : (pad2 n).length = 2 := rfl

theorem pad4_length (n : Nat) : (pad4 n).length = 4 := rfl

theorem strfStamp_length (d : DateTimeParts) : (strfStamp d).length = 15 := by
  simp [strfStamp, String.length_append, pad2_length, pad4_length]
  rfl

theorem strfTimestamp_length (d : DateTimeParts) : (strfTimestamp d).length = 19 := by
  simp [strfTimestamp, String.length_append, pad2_length, pad4_length]
  rfl

theorem mem_mergeOuter_left_only (ts : List TempRow) (hs : List HumRow) (t : TempRow)
    (ht : t ∈ ts)
    (hnone : ∀ h ∈ hs, ¬(h.timestamp = t.timestamp ∧ h.device_name = t.device_name)) :
    (⟨t.device_name, t.timestamp, some t.temperature, none⟩ : MergedRow)
      ∈ mergeOuter ts hs := by
  unfold mergeOuter
  apply List.mem_append_left
  rw [List.mem_flatMap]
  refine ⟨t, ht, ?_⟩
  have hfil : hs.filter (fun h =>
      decide (h.timestamp = t.timestamp ∧ h.device_name = t.device_name)) = [] := by
    rw [List.filter_eq_nil_iff]
    intro h hh
    simpa using hnone h hh
  rw [hfil]
  simp

theorem mem_mergeOuter_matched (ts : List TempRow) (hs : List HumRow)
    (t : TempRow) (h : HumRow) (ht : t ∈ ts) (hh : h ∈ hs)
    (hts : h.timestamp = t.timestamp) (hdev : h.device_name = t.device_name) :
    (⟨t.device_name, t.timestamp, some t.temperature, some h.humidity⟩ : MergedRow)
      ∈ mergeOuter ts hs := by
  unfold mergeOuter
  apply List.mem_append_left
  rw [List.mem_flatMap]
  refine ⟨t, ht, ?_⟩
  have hmem : h ∈ hs.filter (fun h =>
      decide (h.timestamp = t.timestamp ∧ h.device_name = t.device_name)) := by
    rw [List.mem_filter]
    exact ⟨hh, by simp [hts, hdev]⟩
  have hne : ¬(hs.filter (fun h =>
      decide (h.timestamp = t.timestamp ∧ h.device_name = t.device_name))).isEmpty = true := by
    rw [List.isEmpty_iff]
    intro hcon
    rw [hcon] at hmem
    exact absurd hmem (List.not_mem_nil h)
  rw [if_neg hne]
  exact List.mem_map_of_mem _ hmem

theorem mem_mergeOuter_right_only (ts : List TempRow) (hs : List HumRow) (h : HumRow)
    (hh : h ∈ hs)
    (hnone : ∀ t ∈ ts, ¬(h.timestamp = t.timestamp ∧ h.device_name = t.device_name)) :
    (⟨h.device_name, h.timestamp, none, some h.humidity⟩ : MergedRow)
      ∈ mergeOuter ts hs := by
  unfold mergeOuter
  apply List.mem_append_right
  apply List.mem_map_of_mem
  rw [List.mem_filter]
  refine ⟨hh, ?_⟩
  simp only [Bool.not_eq_true', List.any_eq_false]
  intro t ht
  simpa using hnone t ht

theorem mergeOuter_ne_nil (ts : List TempRow) (hs : List HumRow) (hts : ts ≠ []) :
    mergeOuter ts hs ≠ [] := by
  cases ts with
  | nil => exact absurd rfl hts
  | cons t ts' =>
    intro hcon
    by_cases hc : ∃ h ∈ hs, h.timestamp = t.timestamp ∧ h.device_name = t.device_name
    · rcases hc with ⟨h, hh, h1, h2⟩
      have := mem_mergeOuter_matched (t :: ts') hs t h (List.mem_cons_self t ts') hh h1 h2
      rw [hcon] at this
      exact absurd this (List.not_mem_nil _)
    · push_neg at hc
      have := mem_mergeOuter_left_only (t :: ts') hs t (List.mem_cons_self t ts')
        (fun h hh => by
          intro hand
          exact absurd hand.2 (hc h hh hand.1))
      rw [hcon] at this
      exact absurd this (List.not_mem_nil _)

/-- C7: the combined export outer-joins the temperature and humidity series
on (timestamp, device_name): a matched pair yields a combined row, a row
present in only one series keeps the other measurement absent, and an
absent measurement is rendered as an empty cell; the rows are sorted by
timestamp ascending before encoding; timestamps are rendered as fixed-width
(19-character) local strings and the filename is
`sensor_data_<YYYYMMDD_HHMMSS>.csv` with a fixed-width 15-character
stamp. -/
theorem C7_export_all_outer_join (now : DateTimeParts) (ts : List TempRow)
    (hs : List HumRow) (hts : ts ≠ []) (hhs : hs ≠ []) :
    ∃ rows : List MergedRow,
      export_to_csv_all now ts hs =
        some ("sensor_data_" ++ strfStamp now ++ ".csv", rows) ∧
      (strfStamp now).length = 15 ∧
      rows.Pairwise (fun a b => dtKey a.timestamp ≤ dtKey b.timestamp) ∧
      (∀ r ∈ rows, (strfTimestamp r.timestamp).length = 19) ∧
      (∀ t ∈ ts,
        (∀ h ∈ hs, ¬(h.timestamp = t.timestamp ∧ h.device_name = t.device_name)) →
        (⟨t.device_name, t.timestamp, some t.temperature, none⟩ : MergedRow) ∈ rows) ∧
      (∀ h ∈ hs,
        (∀ t ∈ ts, ¬(h.timestamp = t.timestamp ∧ h.device_name = t.device_name)) →
        (⟨h.device_name, h.timestamp, none, some h.humidity⟩ : MergedRow) ∈ rows) ∧
      (∀ t ∈ ts, ∀ h ∈ hs,
        h.timestamp = t.timestamp → h.device_name = t.device_name →
        (⟨t.device_name, t.timestamp, some t.temperature, some h.humidity⟩ : MergedRow)
          ∈ rows) ∧
      renderCell none = "" ∧
      (∀ r : MergedRow, encodeMergedRow r =
        r.device_name ++ "," ++ strfTimestamp r.timestamp ++ ","
          ++ renderCell r.temperature ++ "," ++ renderCell r.humidity) := by
  have hframe : exportFrameAll ts hs = mergeOuter ts hs := by
    unfold exportFrameAll
    rw [if_pos ⟨hts, hhs⟩]
  have hdf : export_to_csv_all now ts hs =
      some ("sensor_data_" ++ strfStamp now ++ ".csv",
        sortKey (fun r => dtKey r.timestamp) (mergeOuter ts hs)) := by
    unfold export_to_csv_all
    rw [hframe, if_neg (mergeOuter_ne_nil ts hs hts)]
  refine ⟨sortKey (fun r => dtKey r.timestamp) (mergeOuter ts hs), hdf,
    strfStamp_length now, pairwise_sortKey _ _,
    fun r _ => strfTimestamp_length _, ?_, ?_, ?_, rfl, fun r => rfl⟩
  · intro t ht hnone
    rw [mem_sortKey]
    exact mem_mergeOuter_left_only ts hs t ht hnone
  · intro h hh hnone
    rw [mem_sortKey]
    exact mem_mergeOuter_right_only ts hs h hh hnone
  · intro t ht h hh h1 h2
    rw [mem_sortKey]
    exact mem_mergeOuter_matched ts hs t h ht hh h1 h2

/-- Witness for C7 at a concrete input: one temperature-only row and one
humidity-only row on different keys. -/
theorem C7_export_all_outer_join_witness :
    ∃ rows : List MergedRow,
      export_to_csv_all ⟨2025, 10, 12, 9, 30, 0⟩
          [⟨"Living Room", ⟨2025, 10, 12, 8, 0, 0⟩, 22⟩]
          [⟨"Bedroom", ⟨2025, 10, 12, 7, 0, 0⟩, 45⟩] =
        some ("sensor_data_" ++ strfStamp ⟨2025, 10, 12, 9, 30, 0⟩ ++ ".csv", rows) ∧
      (strfStamp ⟨2025, 10, 12, 9, 30, 0⟩).length = 15 ∧
      rows.Pairwise (fun a b => dtKey a.timestamp ≤ dtKey b.timestamp) ∧
      (∀ r ∈ rows, (strfTimestamp r.timestamp).length = 19) ∧
      (∀ t ∈ [(⟨"Living Room", ⟨2025, 10, 12, 8, 0, 0⟩, 22⟩ : TempRow)],
        (∀ h ∈ [(⟨"Bedroom", ⟨2025, 10, 12, 7, 0, 0⟩, 45⟩ : HumRow)],
          ¬(h.timestamp = t.timestamp ∧ h.device_name = t.device_name)) →
        (⟨t.device_name, t.timestamp, some t.temperature, none⟩ : MergedRow) ∈ rows) ∧
      (∀ h ∈ [(⟨"Bedroom", ⟨2025, 10, 12, 7, 0, 0⟩, 45⟩ : HumRow)],
        (∀ t ∈ [(⟨"Living Room", ⟨2025, 10, 12, 8, 0, 0⟩, 22⟩ : TempRow)],
          ¬(h.timestamp = t.timestamp ∧ h.device_name = t.device_name)) →
        (⟨h.device_name, h.timestamp, none, some h.humidity⟩ : MergedRow) ∈ rows) ∧
      (∀ t ∈ [(⟨"Living Room", ⟨2025, 10, 12, 8, 0, 0⟩, 22⟩ : TempRow)],
        ∀ h ∈ [(⟨"Bedroom", ⟨2025, 10, 12, 7, 0, 0⟩, 45⟩ : HumRow)],
        h.timestamp = t.timestamp → h.device_name = t.device_name →
        (⟨t.device_name, t.timestamp, some t.temperature, some h.humidity⟩ : MergedRow)
          ∈ rows) ∧
      renderCell none = "" ∧
      (∀ r : MergedRow, encodeMergedRow r =
        r.device_name ++ "," ++ strfTimestamp r.timestamp ++ ","
          ++ renderCell r.temperature ++ "," ++ renderCell r.humidity) :=
  C7_export_all_outer_join ⟨2025, 10, 12, 9, 30, 0⟩
    [⟨"Living Room", ⟨2025, 10, 12, 8, 0, 0⟩, 22⟩]
    [⟨"Bedroom", ⟨2025, 10, 12, 7, 0, 0⟩, 45⟩]
    (by decide) (by decide)

end SensorDash
